import Mathlib

/-!
Verification of the client-side Task Orchestration & Real-Time Synchronization
subsystem of the owl-redesign-prototype repository.

The definitions below are a shallow embedding of the TypeScript client code:

* `src/frontend/src/services/tasks.ts` — the task service (`TaskStatus`,
  `pollTaskCompletion`, `cancelTask`) and the `owlApiService` push-channel
  helpers (`connectWebSocket`, `sendWebSocketQuery`, `sendWebSocketPing`,
  `cancelWebSocketTask`).
* `src/unnamed/part_004` — the `ConversationPanel` component
  (`handleWebSocketMessage`, `handleSubmit`, the keepalive ping effect).
* `src/frontend/src/components/conversation/ModelSelection.tsx` — the
  `CamelChat` component's history-merge logic.
* `src/frontend/src/services/browser.ts` — the sticky browser session service.

Network interactions are modelled by passing the remote responses as explicit
parameters (a snapshot stream for polling, an outcome value for a single HTTP
call, an event list for a push connection).  JavaScript truthiness for strings
(empty string is falsy) is modelled explicitly where the code relies on it.
-/

namespace Owl

/-! ### Task data model — src/frontend/src/services/tasks.ts, lines 16-36 -/

/-- The client-side task status enum (`TaskStatus`); six values, including
the extra `not_found`. -/
inductive TaskStatus where
  | pending
  | running
  | completed
  | failed
  | canceled
  | notFound
deriving DecidableEq, BEq, Repr

/-- The client-side `Task` snapshot; fields not consulted by the claims under
study are dropped from the record but listed in the source interface. -/
structure Task where
  id : String
  status : TaskStatus
  result : Option String := none
  error : Option String := none
deriving DecidableEq, Repr

/-- The terminal-status list used by `pollTaskCompletion`
(`[TaskStatus.COMPLETED, TaskStatus.FAILED, TaskStatus.CANCELED]`). -/
def terminalStatuses : List TaskStatus :=
  [.completed, .failed, .canceled]

/-- `terminalStatuses.includes(task.status)`. -/
def isTerminal (s : TaskStatus) : Bool :=
  terminalStatuses.contains s

/-! ### Polling loop — tasks.ts, `taskService.pollTaskCompletion`, lines 137-160

The loop body performs one `getTaskStatus` fetch per iteration and then sleeps
for `interval` ms; the `while` guard `Date.now() - startTime < timeout` is
checked before each fetch.  Idealizing the fetch as instantaneous, iteration
`k` starts at time `k * interval`, so the number of fetches is
`⌈timeout / interval⌉`.  The stream of server snapshots is a parameter
`snap : Nat → Task` (the `k`-th poll observes `snap k`). -/

/-- HTTP calls the task service can make; used to record the interaction
trace of the polling loop. -/
inductive ApiCall where
  | getStatus (taskId : String)
  | postCancel (taskId : String)
deriving DecidableEq, Repr

/-- A `GET /tasks/{id}` is a pure read; a cancel mutates server state. -/
def ApiCall.isReadOnly : ApiCall → Bool
  | .getStatus _ => true
  | .postCancel _ => false

/-- Number of fetches the `while` loop performs before the overall timeout. -/
def numPolls (interval timeout : Nat) : Nat :=
  (timeout + interval - 1) / interval

/-- The polling loop of `pollTaskCompletion`, fuel-indexed by the remaining
number of allowed fetches. -/
def pollLoop (snap : Nat → Task) (k fuel : Nat) : Except String Task :=
  match fuel with
  | 0 => .error "Task polling timed out"
  | fuel + 1 =>
    let t := snap k
    if isTerminal t.status then .ok t
    else pollLoop snap (k + 1) fuel

/-- The HTTP calls issued by `pollLoop` (one `getStatus` per iteration,
stopping after the first terminal snapshot). -/
def pollTrace (taskId : String) (snap : Nat → Task) (k fuel : Nat) : List ApiCall :=
  match fuel with
  | 0 => []
  | fuel + 1 =>
    let t := snap k
    if isTerminal t.status then [.getStatus taskId]
    else .getStatus taskId :: pollTrace taskId snap (k + 1) fuel

/-- `taskService.pollTaskCompletion(taskId, interval, timeout)`. -/
def pollTaskCompletion (taskId : String) (snap : Nat → Task)
    (interval timeout : Nat) : Except String Task :=
  let _ := taskId
  pollLoop snap 0 (numPolls interval timeout)

/-- The complete interaction trace of one `pollTaskCompletion` run. -/
def pollCalls (taskId : String) (snap : Nat → Task)
    (interval timeout : Nat) : List ApiCall :=
  pollTrace taskId snap 0 (numPolls interval timeout)

lemma pollTrace_readOnly (taskId : String) (snap : Nat → Task) :
    ∀ fuel k, ∀ c ∈ pollTrace taskId snap k fuel, c.isReadOnly = true := by
  intro fuel
  induction fuel with
  | zero => intro k c hc; simp [pollTrace] at hc
  | succ n ih =>
    intro k c hc
    simp only [pollTrace] at hc
    by_cases h : isTerminal (snap k).status = true
    · simp [h] at hc; subst hc; rfl
    · simp only [Bool.not_eq_true] at h
      simp [h] at hc
      rcases hc with hc | hc
      · subst hc; rfl
      · exact ih (k + 1) c hc

lemma pollLoop_hits_first (snap : Nat → Task) :
    ∀ fuel k j, j < fuel → isTerminal (snap (k + j)).status = true →
    (∀ i, i < j → isTerminal (snap (k + i)).status = false) →
    pollLoop snap k fuel = .ok (snap (k + j)) := by
  intro fuel
  induction fuel with
  | zero => intro k j hj; omega
  | succ n ih =>
    intro k j hj hterm hmin
    cases j with
    | zero =>
      simp only [Nat.add_zero] at hterm
      simp [pollLoop, hterm]
    | succ j =>
      have h0 : isTerminal (snap (k + 0)).status = false := hmin 0 (Nat.succ_pos j)
      simp only [Nat.add_zero] at h0
      simp only [pollLoop, h0, Bool.false_eq_true, if_false]
      have hrec := ih (k + 1) j (by omega)
        (by have := hterm; rw [show k + 1 + j = k + (j + 1) by omega]; exact this)
        (by intro i hi
            have := hmin (i + 1) (by omega)
            rw [show k + 1 + i = k + (i + 1) by omega]
            exact this)
      rw [hrec, show k + 1 + j = k + (j + 1) by omega]

lemma pollLoop_times_out (snap : Nat → Task) :
    ∀ fuel k, (∀ i, i < fuel → isTerminal (snap (k + i)).status = false) →
    pollLoop snap k fuel = .error "Task polling timed out" := by
  intro fuel
  induction fuel with
  | zero => intro k _; rfl
  | succ n ih =>
    intro k hall
    have h0 : isTerminal (snap (k + 0)).status = false := hall 0 (Nat.succ_pos n)
    simp only [Nat.add_zero] at h0
    simp only [pollLoop, h0, Bool.false_eq_true, if_false]
    have hshift : ∀ i, i < n → isTerminal (snap (k + 1 + i)).status = false := by
      intro i hi
      have := hall (i + 1) (by omega)
      rw [show k + 1 + i = k + (i + 1) by omega]
      exact this
    exact ih (k + 1) hshift

lemma pollTrace_length (taskId : String) (snap : Nat → Task) :
    ∀ fuel k, (∀ i, i < fuel → isTerminal (snap (k + i)).status = false) →
    (pollTrace taskId snap k fuel).length = fuel := by
  intro fuel
  induction fuel with
  | zero => intro k _; rfl
  | succ n ih =>
    intro k hall
    have h0 : isTerminal (snap (k + 0)).status = false := hall 0 (Nat.succ_pos n)
    simp only [Nat.add_zero] at h0
    simp only [pollTrace, h0, Bool.false_eq_true, if_false, List.length_cons]
    have hshift : ∀ i, i < n → isTerminal (snap (k + 1 + i)).status = false := by
      intro i hi
      have := hall (i + 1) (by omega)
      rw [show k + 1 + i = k + (i + 1) by omega]
      exact this
    rw [ih (k + 1) hshift]

/-- C4: `pollTaskCompletion` issues only read-only status fetches (so a local
timeout never mutates the server-side task, which stays re-fetchable); it
returns the first polled snapshot whose status is completed, failed or
canceled, and if no snapshot within the `⌈timeout/interval⌉` polls of the
overall client-local timeout is terminal it raises the local error
"Task polling timed out". -/
theorem pollTaskCompletion_first_terminal_or_local_timeout
    (taskId : String) (snap : Nat → Task) (interval timeout : Nat) :
    (∀ c ∈ pollCalls taskId snap interval timeout, c.isReadOnly = true) ∧
    (∀ j, j < numPolls interval timeout →
      isTerminal (snap j).status = true →
      (∀ i, i < j → isTerminal (snap i).status = false) →
      pollTaskCompletion taskId snap interval timeout = .ok (snap j)) ∧
    ((∀ i, i < numPolls interval timeout → isTerminal (snap i).status = false) →
      pollTaskCompletion taskId snap interval timeout =
        .error "Task polling timed out") := by
  refine ⟨pollTrace_readOnly taskId snap _ 0, ?_, ?_⟩
  · intro j hj hterm hmin
    have := pollLoop_hits_first snap (numPolls interval timeout) 0 j hj
      (by simpa using hterm) (by simpa using hmin)
    simpa [pollTaskCompletion] using this
  · intro hall
    have := pollLoop_times_out snap (numPolls interval timeout) 0
      (by simpa using hall)
    simpa [pollTaskCompletion] using this

/-- Witness for C4: a concrete run whose third poll is the first terminal
snapshot is returned as the result. -/
theorem pollTaskCompletion_witness :
    pollTaskCompletion "t1"
      (fun k => { id := "t1", status := if k == 2 then .completed else .running })
      1000 300000 = .ok { id := "t1", status := .completed } := by
  have h := (pollTaskCompletion_first_terminal_or_local_timeout "t1"
    (fun k => { id := "t1", status := if k == 2 then .completed else .running })
    1000 300000).2.1 2 (by decide) (by decide) (by decide)
  simpa using h

/-- C9: the status type has exactly six values — the five lifecycle states
plus `not_found`; `not_found` is not terminal, and a poll stream that keeps
answering `not_found` is re-polled on every one of the `⌈timeout/interval⌉`
intervals until the loop finally raises the local timeout error. -/
theorem taskStatus_notFound_nonterminal_repolls
    (taskId : String) (interval timeout : Nat) :
    ([TaskStatus.pending, .running, .completed, .failed, .canceled, .notFound].length = 6) ∧
    ([TaskStatus.pending, .running, .completed, .failed, .canceled, .notFound].Nodup) ∧
    (∀ s : TaskStatus,
      s ∈ [TaskStatus.pending, .running, .completed, .failed, .canceled, .notFound]) ∧
    isTerminal .notFound = false ∧
    pollTaskCompletion taskId (fun _ => { id := taskId, status := .notFound })
      interval timeout = .error "Task polling timed out" ∧
    (pollCalls taskId (fun _ => { id := taskId, status := .notFound })
      interval timeout).length = numPolls interval timeout := by
  refine ⟨rfl, by decide, ?_, rfl, ?_, ?_⟩
  · intro s; cases s <;> simp
  · have := pollLoop_times_out (fun _ => { id := taskId, status := .notFound })
      (numPolls interval timeout) 0 (by intro i _; rfl)
    simpa [pollTaskCompletion] using this
  · exact pollTrace_length taskId _ (numPolls interval timeout) 0 (by intro i _; rfl)

/-! ### Cancellation — tasks.ts, `taskService.cancelTask`, lines 112-129

The HTTP call either resolves with a response body (whose optional `status`
and `error` fields are inspected) or rejects; both `axios` rejections and the
explicit `throw` on `status === 'error'` are caught by the `catch`, which
returns `{ success: false }`. -/

/-- Outcome of the `api.post` call inside `cancelTask`. -/
inductive HttpOutcome where
  | thrown (msg : String)
  | ok (status : Option String) (error : Option String)
deriving DecidableEq, Repr

/-- The `{ success: bool }` result shape. -/
structure CancelResult where
  success : Bool
deriving DecidableEq, Repr

/-- The `try` block of `cancelTask`: throws (models `throw new Error(...)`)
when the response body carries `status === 'error'`. -/
def cancelTaskInner (resp : HttpOutcome) : Except String CancelResult :=
  match resp with
  | .thrown m => .error m
  | .ok status err =>
    if status = some "error" then .error (err.getD "")
    else .ok { success := true }

/-- `taskService.cancelTask` for a given call outcome: the surrounding
`catch` converts every thrown error into `{ success: false }`, so the
function is total (never throws to its caller).  The `taskId` and optional
`reason` only select the URL and do not influence the result shape. -/
def cancelTask (taskId : String) (reason : Option String)
    (resp : HttpOutcome) : CancelResult :=
  let _ := taskId
  let _ := reason
  match cancelTaskInner resp with
  | .ok r => r
  | .error _ => { success := false }

/-- C8: for every taskId and optional reason, `cancelTask` always returns a
`{ success: bool }` value (never propagates an exception), with
`success = true` exactly when the call resolved without an error status and
`success = false` on any transport or server error. -/
theorem cancelTask_success_shape (taskId : String) (reason : Option String)
    (resp : HttpOutcome) :
    cancelTask taskId reason resp =
      { success := match resp with
                   | .ok st _ => !(st == some "error")
                   | .thrown _ => false } := by
  cases resp with
  | thrown m => rfl
  | ok st er =>
    by_cases h : st = some "error"
    · simp [cancelTask, cancelTaskInner, h]
    · simp [cancelTask, cancelTaskInner, h]

/-! ### Push-channel wire messages — tasks.ts (owlApiService), lines 499-687

Client→server payloads are built by `JSON.stringify` over object literals;
a payload is modelled as its ordered field list.  The four `ws.send` call
sites in the client are: the initial ping in `connectWebSocket`'s `onopen`
(lines 536-540), `sendWebSocketQuery` (633-637), `sendWebSocketPing`
(655-658) and `cancelWebSocketTask` (678-681). -/

/-- A JSON field value (only strings and numbers appear in client payloads). -/
inductive JVal where
  | str (s : String)
  | num (n : Nat)
deriving DecidableEq, Repr

/-- A JSON object payload as its ordered field list. -/
abbrev WireMsg := List (String × JVal)

/-- `{ type: 'query', query, module }` — built in `sendWebSocketQuery`. -/
def wsQueryPayload (query module : String) : WireMsg :=
  [("type", .str "query"), ("query", .str query), ("module", .str module)]

/-- `{ type: 'ping', time: Date.now() }` — built in `sendWebSocketPing` and
in `connectWebSocket`'s `onopen` handler. -/
def wsPingPayload (time : Nat) : WireMsg :=
  [("type", .str "ping"), ("time", .num time)]

/-- `{ type: 'cancel', task_id: taskId }` — built in `cancelWebSocketTask`. -/
def wsCancelPayload (taskId : String) : WireMsg :=
  [("type", .str "cancel"), ("task_id", .str taskId)]

/-- The four `ws.send` call sites of the client, with their data. -/
inductive ClientSend where
  | initialPing (time : Nat)
  | querySend (query module : String)
  | keepalivePing (time : Nat)
  | cancelSend (taskId : String)
deriving DecidableEq, Repr

/-- The payload each send site passes to `ws.send(JSON.stringify(...))`. -/
def ClientSend.payload : ClientSend → WireMsg
  | .initialPing t => wsPingPayload t
  | .querySend q m => wsQueryPayload q m
  | .keepalivePing t => wsPingPayload t
  | .cancelSend id => wsCancelPayload id

/-- Spec shape `{type:"query", query, module}` with exactly those fields. -/
def isQueryShape : WireMsg → Bool
  | [(k1, JVal.str v), (k2, JVal.str _), (k3, JVal.str _)] =>
    k1 == "type" && v == "query" && k2 == "query" && k3 == "module"
  | _ => false

/-- Spec shape `{type:"cancel", task_id}` with exactly those fields. -/
def isCancelShape : WireMsg → Bool
  | [(k1, JVal.str v), (k2, JVal.str _)] =>
    k1 == "type" && v == "cancel" && k2 == "task_id"
  | _ => false

/-- Spec shape `{type:"ping", time}` with exactly those fields. -/
def isPingShape : WireMsg → Bool
  | [(k1, JVal.str v), (k2, JVal.num _)] =>
    k1 == "type" && v == "ping" && k2 == "time"
  | _ => false

/-- C7: every message any client send site passes to the push channel has
exactly one of the three wire shapes `{type:"query", query, module}`,
`{type:"cancel", task_id}`, `{type:"ping", time}`. -/
theorem clientSend_payload_shapes (s : ClientSend) :
    (isQueryShape s.payload).toNat + (isCancelShape s.payload).toNat +
      (isPingShape s.payload).toNat = 1 := by
  cases s <;> rfl

/-! ### Transport selection — part_004 `ConversationPanel.handleSubmit`
(lines 270-285) and tasks.ts `sendWebSocketQuery` (lines 626-643)

`handleSubmit` uses the push channel iff `wsRef.current` exists and its
`readyState` is `OPEN`; if `sendWebSocketQuery` returns `false` (either the
re-checked `readyState` is not `OPEN`, or `ws.send` threw), it falls back to
`sendRESTQuery`, which submits via `owlApiService.runQuery` exactly once.
Whether the underlying `ws.send` succeeds is the parameter `sendOk`. -/

/-- `WebSocket.readyState` values. -/
inductive ReadyState where
  | connecting
  | opened
  | closing
  | closed
deriving DecidableEq, Repr

/-- Result of `sendWebSocketQuery ws query module`: the returned flag, the
number of `ws.send` invocations, and the payload actually transmitted (none
when `ws.send` threw or the channel was not open). -/
structure WsSendResult where
  returned : Bool
  sendAttempts : Nat
  transmitted : Option WireMsg
deriving DecidableEq, Repr

/-- `owlApiService.sendWebSocketQuery`. -/
def sendWebSocketQuery (rs : ReadyState) (sendOk : Bool)
    (query module : String) : WsSendResult :=
  if rs ≠ .opened then { returned := false, sendAttempts := 0, transmitted := none }
  else if sendOk then
    { returned := true, sendAttempts := 1, transmitted := some (wsQueryPayload query module) }
  else { returned := false, sendAttempts := 1, transmitted := none }

/-- The transport actions of one `handleSubmit` run: the push-channel send
result, and how many polling-transport (`sendRESTQuery`) submissions the
handler makes. -/
structure SubmitOutcome where
  push : WsSendResult
  restSubmits : Nat
deriving DecidableEq, Repr

/-- `ConversationPanel.handleSubmit`, restricted to its transport choice:
push first iff the channel is present and `OPEN`, REST fallback exactly when
push is not used or reports failure. -/
def handleSubmitTransport (wsPresent : Bool) (rs : ReadyState) (sendOk : Bool)
    (query module : String) : SubmitOutcome :=
  if wsPresent && rs == .opened then
    let r := sendWebSocketQuery rs sendOk query module
    if r.returned then { push := r, restSubmits := 0 }
    else { push := r, restSubmits := 1 }
  else
    { push := { returned := false, sendAttempts := 0, transmitted := none },
      restSubmits := 1 }

/-- C5: the push channel is used (`ws.send` invoked) iff the channel is open
at submission time; the polling transport is used exactly when the push send
did not transmit, so every submission goes out exactly once — never zero
times and never twice. -/
theorem handleSubmit_push_iff_open_rest_fallback
    (wsPresent : Bool) (rs : ReadyState) (sendOk : Bool) (query module : String) :
    ((handleSubmitTransport wsPresent rs sendOk query module).push.sendAttempts = 1 ↔
      (wsPresent = true ∧ rs = .opened)) ∧
    ((handleSubmitTransport wsPresent rs sendOk query module).restSubmits =
      if wsPresent && rs == .opened && sendOk then 0 else 1) ∧
    ((if (handleSubmitTransport wsPresent rs sendOk query module).push.transmitted.isSome
        then 1 else 0) +
      (handleSubmitTransport wsPresent rs sendOk query module).restSubmits = 1) := by
  cases wsPresent <;> cases rs <;> cases sendOk <;>
    simp [handleSubmitTransport, sendWebSocketQuery]

/-- Witness for C5: with an open channel and a successful send, the query is
transmitted once over the push channel and the polling transport is not used;
the iff is discharged at this concrete input. -/
theorem handleSubmit_witness :
    ((handleSubmitTransport true .opened true "q" "run").push.sendAttempts = 1) ∧
    ((handleSubmitTransport true .opened true "q" "run").restSubmits = 0) := by
  refine ⟨(handleSubmit_push_iff_open_rest_fallback true .opened true "q" "run").1.mpr
    ⟨rfl, rfl⟩, ?_⟩
  have h := (handleSubmit_push_iff_open_rest_fallback true .opened true "q" "run").2.1
  simpa using h

/-! ### Connection lifecycle — tasks.ts `connectWebSocket`, lines 499-618

The wrapper installs `onopen` / `onerror` / `onclose` handlers and a one-shot
5-second connection timeout.  `hasConnected` starts false and becomes true on
the first `onopen`; `onerror` and `onclose` notify the `onMessage` callback
only when `hasConnected` is already true (and, for `onclose`, only when the
close code is not 1000).  Every handler clears the connection timeout, so the
timeout callback can only run before any open/error/close event; when it runs
(readyState not `OPEN`) it closes the socket and delivers a fallback error
notification unconditionally. -/

/-- Events delivered to the `connectWebSocket` handlers, in arrival order. -/
inductive ConnEvent where
  | opened
  | errored
  | closedWith (code : Nat)
  | timeoutFired
deriving DecidableEq, Repr

/-- The wrapper's mutable context: the `hasConnected` flag and whether the
connection timeout is still pending (not yet cleared or fired). -/
structure ConnState where
  hasConnected : Bool
  timerActive : Bool
deriving DecidableEq, Repr

/-- Notifications the wrapper delivers to its `onMessage` callback. -/
inductive ClientNotif where
  | systemConnected
  | errorNotif (content : String)
deriving DecidableEq, Repr

/-- Whether a notification is a transport-error notification. -/
def ClientNotif.isErrorNotif : ClientNotif → Bool
  | .errorNotif _ => true
  | .systemConnected => false

/-- State before any handler has run. -/
def connInit : ConnState :=
  { hasConnected := false, timerActive := true }

/-- One handler invocation of `connectWebSocket`. -/
def connStep (s : ConnState) : ConnEvent → ConnState × List ClientNotif
  | .opened =>
    ({ hasConnected := true, timerActive := false }, [.systemConnected])
  | .errored =>
    ({ s with timerActive := false },
      if s.hasConnected then
        [.errorNotif "WebSocket connection error. Some features may not work properly."]
      else [])
  | .closedWith code =>
    ({ s with timerActive := false },
      if code ≠ 1000 ∧ s.hasConnected then
        [.errorNotif ("WebSocket connection closed (" ++ toString code ++
          "). Real-time updates disabled.")]
      else [])
  | .timeoutFired =>
    if s.timerActive then
      ({ s with timerActive := false },
        [.errorNotif "Failed to connect to the server via WebSocket. Falling back to HTTP API."])
    else (s, [])

/-- Run the handlers over an event list, collecting all notifications. -/
def connRunFrom (s : ConnState) : List ConnEvent → ConnState × List ClientNotif
  | [] => (s, [])
  | e :: rest =>
    let this := connStep s e
    let tail := connRunFrom this.1 rest
    (tail.1, this.2 ++ tail.2)

/-- A full run from the freshly-installed handlers. -/
def connRun (events : List ConnEvent) : ConnState × List ClientNotif :=
  connRunFrom connInit events

lemma connStep_hasConnected (s : ConnState) (e : ConnEvent) :
    (connStep s e).1.hasConnected = true ↔
      (s.hasConnected = true ∨ e = .opened) := by
  cases e with
  | opened => simp [connStep]
  | errored => simp [connStep]
  | closedWith code => simp [connStep]
  | timeoutFired =>
    by_cases h : s.timerActive = true <;> simp [connStep, h]

lemma connStep_timerActive (s : ConnState) (e : ConnEvent) :
    (connStep s e).1.timerActive = false := by
  cases e with
  | opened => rfl
  | errored => rfl
  | closedWith code => rfl
  | timeoutFired =>
    by_cases h : s.timerActive = true <;> simp [connStep, h]

lemma connRunFrom_hasConnected (events : List ConnEvent) : ∀ s : ConnState,
    ((connRunFrom s events).1.hasConnected = true ↔
      (s.hasConnected = true ∨ ConnEvent.opened ∈ events)) := by
  induction events with
  | nil => intro s; simp [connRunFrom]
  | cons e rest ih =>
    intro s
    simp only [connRunFrom]
    rw [ih, connStep_hasConnected]
    cases e <;> simp [List.mem_cons]

lemma connRunFrom_timerActive (events : List ConnEvent) : ∀ s : ConnState,
    (connRunFrom s events).1.timerActive = (s.timerActive && events.isEmpty) := by
  induction events with
  | nil => intro s; simp [connRunFrom]
  | cons e rest ih =>
    intro s
    simp only [connRunFrom]
    rw [ih, connStep_timerActive]
    simp

/-- C2 counterexample: in a run in which the connection never opens, firing
the 5-second connection timeout delivers an error notification, so it is not
true that no error notification is delivered before the first successful
open. -/
theorem connTimeout_notifies_before_open :
    (ConnEvent.opened ∉ [ConnEvent.timeoutFired]) ∧
    ((connRun [ConnEvent.timeoutFired]).2.any ClientNotif.isErrorNotif = true) := by
  constructor
  · decide
  · rfl

/-- C2 amended: the `onerror` and `onclose` handlers surface a transport
error iff the connection has successfully opened at least once before (and,
for a close, the code is not 1000); the one exception is the 5-second
connection-timeout fallback, which fires only while the timer is still
pending — i.e. before any open/error/close event, hence never after a
successful open — and then delivers an error notification. -/
theorem connErrors_surfaced_iff_hasConnected (events : List ConnEvent) :
    ((connStep (connRun events).1 .errored).2.any ClientNotif.isErrorNotif = true ↔
      ConnEvent.opened ∈ events) ∧
    (∀ code : Nat,
      (connStep (connRun events).1 (.closedWith code)).2.any ClientNotif.isErrorNotif = true ↔
        (ConnEvent.opened ∈ events ∧ code ≠ 1000)) ∧
    ((connStep (connRun events).1 .timeoutFired).2.any ClientNotif.isErrorNotif = true ↔
      (connRun events).1.timerActive = true) ∧
    ((connRun events).1.timerActive = true → ConnEvent.opened ∉ events) := by
  have hconn : (connRun events).1.hasConnected = true ↔ ConnEvent.opened ∈ events := by
    have := connRunFrom_hasConnected events connInit
    simpa [connRun, connInit] using this
  have htimer : (connRun events).1.timerActive = events.isEmpty := by
    have := connRunFrom_timerActive events connInit
    simpa [connRun, connInit] using this
  refine ⟨?_, ?_, ?_, ?_⟩
  · by_cases h : ConnEvent.opened ∈ events
    · have hc : (connRun events).1.hasConnected = true := hconn.mpr h
      simp [connStep, hc, h, ClientNotif.isErrorNotif]
    · have hc : (connRun events).1.hasConnected = false := by
        rcases Bool.eq_false_or_eq_true (connRun events).1.hasConnected with ht | hf
        · exact absurd (hconn.mp ht) h
        · exact hf
      simp [connStep, hc, h]
  · intro code
    by_cases h : ConnEvent.opened ∈ events
    · have hc : (connRun events).1.hasConnected = true := hconn.mpr h
      by_cases hcode : code = 1000
      · simp [connStep, hc, h, hcode]
      · simp [connStep, hc, h, hcode, ClientNotif.isErrorNotif]
    · have hc : (connRun events).1.hasConnected = false := by
        rcases Bool.eq_false_or_eq_true (connRun events).1.hasConnected with ht | hf
        · exact absurd (hconn.mp ht) h
        · exact hf
      simp [connStep, hc, h]
  · by_cases h : (connRun events).1.timerActive = true
    · simp [connStep, h, ClientNotif.isErrorNotif]
    · simp only [Bool.not_eq_true] at h
      simp [connStep, h]
  · intro h hmem
    rw [htimer] at h
    rcases events with _ | ⟨e, rest⟩
    · simp at hmem
    · simp [List.isEmpty] at h

/-- Witness for C2 amended: after a successful open, an error event is
surfaced; the iff of the theorem is discharged at the concrete one-event
run. -/
theorem connErrors_surfaced_witness :
    (connStep (connRun [ConnEvent.opened]).1 .errored).2.any ClientNotif.isErrorNotif = true :=
  ((connErrors_surfaced_iff_hasConnected [ConnEvent.opened]).1).mpr (by decide)

/-! ### Conversation panel — src/unnamed/part_004, `ConversationPanel`

`handleWebSocketMessage` (lines 53-194) is the single consumer of push
messages; it transforms the panel state (`messages`, `loading`, `status`,
`tokenCount`).  `formatTimestamp()` is passed in as the `now` parameter.
JavaScript `x || d` on strings (empty string falsy) is `jsOr`;
`String.prototype.includes` is `strIncludes`. -/

/-- A UI chat message (`Message` in part_004). -/
structure ChatMsg where
  role : String
  content : String
  timestamp : Option String := none
deriving DecidableEq, Repr

/-- Does `p` occur at the start of `t`? (helper for `strIncludes`). -/
def charsBeginWith : List Char → List Char → Bool
  | [], _ => true
  | _ :: _, [] => false
  | a :: p, b :: t => a == b && charsBeginWith p t

/-- Does `pat` occur anywhere in the text? (helper for `strIncludes`). -/
def charsContainsSub (pat : List Char) : List Char → Bool
  | [] => pat.isEmpty
  | c :: rest => charsBeginWith pat (c :: rest) || charsContainsSub pat rest

/-- JavaScript `text.includes(pat)`. -/
def strIncludes (text pat : String) : Bool :=
  charsContainsSub pat.data text.data

/-- JavaScript `x || dflt` for an optional string field (empty string falsy). -/
def jsOr (o : Option String) (dflt : String) : String :=
  match o with
  | some v => if v == "" then dflt else v
  | none => dflt

/-- JavaScript truthiness of an optional string field. -/
def jsTruthyStr (o : Option String) : Bool :=
  match o with
  | some v => !(v == "")
  | none => false

/-- The predicate of the `system`/`connected` cleanup:
`msg.role === 'error' && (msg.content.includes('WebSocket') ||
msg.content.includes('connection'))` (part_004 lines 61-65). -/
def isConnErrorMsg (m : ChatMsg) : Bool :=
  m.role == "error" &&
    (strIncludes m.content "WebSocket" || strIncludes m.content "connection")

/-- `prev.filter(msg => msg.role !== 'loading')`. -/
def filterNotLoading (msgs : List ChatMsg) : List ChatMsg :=
  msgs.filter (fun m => !(m.role == "loading"))

/-- The `system`/`connected` branch: drop matching error bubbles. -/
def clearWsErrors (msgs : List ChatMsg) : List ChatMsg :=
  msgs.filter (fun m => !(isConnErrorMsg m))

/-- `chat_history.map(msg => ({...msg, timestamp: formatTimestamp()}))`. -/
def stampHistory (hist : List ChatMsg) (now : String) : List ChatMsg :=
  hist.map (fun m => { m with timestamp := some now })

/-- The panel status indicator values. -/
inductive UiStatus where
  | idle
  | loading
  | success
  | error
deriving DecidableEq, Repr

/-- The `ConversationPanel` state touched by `handleWebSocketMessage`. -/
structure PanelState where
  messages : List ChatMsg
  loading : Bool
  status : UiStatus
  tokenCount : String
deriving DecidableEq, Repr

/-- `token_info` of a completed result. -/
structure TokenInfo where
  completion : Option Nat := none
  prompt : Option Nat := none
  total : Option Nat := none
deriving DecidableEq, Repr

/-- `response.result` of a completed status message. -/
structure QueryRes where
  answer : Option String := none
  tokenInfo : Option TokenInfo := none
  chatHistory : Option (List ChatMsg) := none
deriving DecidableEq, Repr

/-- Server→client push messages, as destructured by `handleWebSocketMessage`
(fields the handler reads; anything else falls through unchanged). -/
inductive ServerMsg where
  | system (status : Option String)
  | ack (taskId : Option String)
  | statusMsg (status : Option String) (result : Option QueryRes)
      (error : Option String) (browserMode : Option String)
  | log (message : Option String)
  | errorMsg (message : Option String)
  | pong
deriving DecidableEq, Repr

/-- `Completion: c | Prompt: p | Total: t` (part_004 line 117). -/
def formatTokenCount (ti : TokenInfo) : String :=
  "Completion: " ++ toString (ti.completion.getD 0) ++
    " | Prompt: " ++ toString (ti.prompt.getD 0) ++
    " | Total: " ++ toString (ti.total.getD 0)

/-- `chat_history && Array.isArray(chat_history) && chat_history.length > 0`. -/
def historyNonempty (o : Option (List ChatMsg)) : Bool :=
  match o with
  | some hist => !hist.isEmpty
  | none => false

/-- `answer && answer.trim()`. -/
def answerNonblank (o : Option String) : Bool :=
  match o with
  | some a => !(a == "") && !(a.trim == "")
  | none => false

/-- The `log` branch: update the first `loading` bubble in place. -/
def updateFirstLoading (msgs : List ChatMsg) (content now : String) : List ChatMsg :=
  match msgs with
  | [] => []
  | m :: rest =>
    if m.role == "loading" then
      { m with content := content, timestamp := some now } :: rest
    else m :: updateFirstLoading rest content now

/-- The `processing`/`browser_mode` branch: replace a trailing `loading`
bubble with a browser-mode notice. -/
def updateTrailingLoading (msgs : List ChatMsg) (browserMode now : String) : List ChatMsg :=
  match msgs.getLast? with
  | some lastMsg =>
    if lastMsg.role == "loading" then
      msgs.dropLast ++
        [{ role := "loading",
           content := "Thinking... (" ++
             (if browserMode == "visible" then "Browser window should open shortly"
              else "Headless browser mode") ++ ")",
           timestamp := some now }]
    else msgs
  | none => msgs

/-- `ConversationPanel.handleWebSocketMessage` (part_004 lines 53-194) as a
state transformer; `now` is the value of `formatTimestamp()`. -/
def handleWebSocketMessage (s : PanelState) (resp : ServerMsg) (now : String) : PanelState :=
  match resp with
  | .system status =>
    if status == some "connected" then
      { s with messages := clearWsErrors s.messages }
    else s
  | .ack _ => s
  | .statusMsg status result err browserMode =>
    match status == some "completed", result with
    | true, some r =>
      let base := filterNotLoading s.messages
      let msgs :=
        if historyNonempty r.chatHistory then
          base ++ stampHistory (r.chatHistory.getD []) now
        else if answerNonblank r.answer then
          base ++ [{ role := "assistant", content := r.answer.getD "",
                     timestamp := some now }]
        else
          base ++ [{ role := "error",
                     content := "Empty response received. The browser process may have failed to return results.",
                     timestamp := some now }]
      let tc :=
        match r.tokenInfo with
        | some ti => formatTokenCount ti
        | none => s.tokenCount
      { messages := msgs, loading := false, status := .success, tokenCount := tc }
    | _, _ =>
      if status == some "error" then
        { s with
            status := .error, loading := false,
            messages := filterNotLoading s.messages ++
              [{ role := "error",
                 content := jsOr err "An error occurred processing your request",
                 timestamp := some now }] }
      else if status == some "processing" && jsTruthyStr browserMode then
        { s with messages := updateTrailingLoading s.messages (browserMode.getD "") now }
      else s
  | .log message =>
    if s.loading then
      { s with messages := updateFirstLoading s.messages (jsOr message "Thinking...") now }
    else s
  | .errorMsg message =>
    { s with
        status := .error, loading := false,
        messages := filterNotLoading s.messages ++
          [{ role := "error",
             content := jsOr message "An unexpected error occurred",
             timestamp := some now }] }
  | .pong => s

/-! ### Panel side effects — part_004 lines 32-51 (mount/ping/unmount)

The mount effect calls `connectWebSocket` once; a 30-second interval sends a
keepalive ping only when the socket exists and is `OPEN`
(`sendWebSocketPing` re-checks `readyState`); the unmount cleanup closes the
socket.  `handleWebSocketMessage` performs no channel operation in any
branch — in particular the `pong` branch only logs. -/

/-- Channel operations the panel can perform. -/
inductive ClientAction where
  | connectPush
  | sendPayload (p : WireMsg)
  | closePush
deriving DecidableEq, Repr

/-- `owlApiService.sendWebSocketPing` (tasks.ts lines 649-664): sends the
ping payload only over an `OPEN` socket. -/
def sendWebSocketPingActions (rs : ReadyState) (time : Nat) : List ClientAction :=
  if rs ≠ .opened then [] else [.sendPayload (wsPingPayload time)]

/-- The timer/effect/message events driving the panel. -/
inductive PanelEvent where
  | mountEffect
  | pingTimer (wsPresent : Bool) (rs : ReadyState) (time : Nat)
  | wsMessage (m : ServerMsg) (now : String)
  | unmountEffect
deriving DecidableEq, Repr

/-- Channel operations performed on each event (from part_004 lines 32-51
and the body of `handleWebSocketMessage`). -/
def panelActions : PanelEvent → List ClientAction
  | .mountEffect => [.connectPush]
  | .pingTimer wsPresent rs time =>
    if wsPresent && rs == .opened then sendWebSocketPingActions rs time else []
  | .wsMessage _ _ => []
  | .unmountEffect => [.closePush]

/-- All channel operations over a run of events. -/
def panelRunActions (events : List PanelEvent) : List ClientAction :=
  (events.map panelActions).flatten

/-! ### History-merge deduplication — ModelSelection.tsx `CamelChat`

The REST fallback of `CamelChat.handleSubmit` (lines 163-181) filters the
returned `chat_history` against `new Set(messages.map(m => m.content))`,
where `messages` is the state captured before the user message was appended;
the push-channel merge in `handleWebSocketMessage` (part_004 lines 79-91)
appends the whole batch after removing only `loading` bubbles. -/

/-- The batch the REST fallback appends:
`result.chat_history.filter(m => !existingIds.has(m.content))` with
`existingIds = new Set(messages.map(m => m.content))`. -/
def camelChatNewMessages (snapshot hist : List ChatMsg) : List ChatMsg :=
  hist.filter (fun m => !(snapshot.any (fun p => p.content == m.content)))

/-- The full REST-fallback merge of `CamelChat.handleSubmit`: `current` is
the live list at `setMessages` time, `snapshot` the stale `messages` binding
used for the content set. -/
def camelChatRestMerge (snapshot current hist : List ChatMsg)
    (answer : String) : List ChatMsg :=
  let newMessages := camelChatNewMessages snapshot hist
  if newMessages.length > 0 then current ++ newMessages
  else current ++ [{ role := "assistant", content := answer }]

/-- Role+content identity of two chat bubbles. -/
def sameBubble (a b : ChatMsg) : Bool :=
  a.role == b.role && a.content == b.content

/-- No two entries of the list agree on role and content. -/
def noDupBubbles : List ChatMsg → Bool
  | [] => true
  | m :: rest => !(rest.any (sameBubble m)) && noDupBubbles rest

/-- C1 counterexample: merging a completed-status history batch that repeats
the already-displayed user turn produces a duplicate role+content bubble in
the resulting UI list, so the merge does not always avoid duplicates. -/
theorem historyMerge_creates_duplicate_bubble :
    noDupBubbles ((handleWebSocketMessage
      { messages := [
          { role := "assistant", content := "How can I help you today?", timestamp := some "t0" },
          { role := "user", content := "hi", timestamp := some "t1" },
          { role := "loading", content := "Thinking...", timestamp := some "t1" }],
        loading := true, status := .loading, tokenCount := "" }
      (.statusMsg (some "completed")
        (some { chatHistory := some [
          { role := "user", content := "hi" },
          { role := "assistant", content := "hello" }] })
        none none) "t2").messages) = false := by
  decide

/-- C1 amended: only the REST fallback of `CamelChat` deduplicates the
historical batch, and it compares by content alone against the
pre-submission snapshot — every message it appends has a content absent from
that snapshot; the push-channel completed merge appends the whole batch
after removing only the loading bubbles, performing no role+content
deduplication at all. -/
theorem mergeHistory_dedup_scope :
    (∀ snapshot hist : List ChatMsg, ∀ m ∈ camelChatNewMessages snapshot hist,
      ∀ p ∈ snapshot, ¬(p.content = m.content)) ∧
    (∀ (s : PanelState) (r : QueryRes) (err bm : Option String)
      (hist : List ChatMsg) (now : String),
      r.chatHistory = some hist → hist ≠ [] →
      (handleWebSocketMessage s (.statusMsg (some "completed") (some r) err bm) now).messages =
        filterNotLoading s.messages ++ stampHistory hist now) := by
  constructor
  · intro snapshot hist m hm p hp heq
    have hpred := (List.mem_filter.mp hm).2
    rw [Bool.not_eq_true'] at hpred
    have hnone := List.any_eq_false.mp hpred p hp
    rw [heq] at hnone
    simp at hnone
  · intro s r err bm hist now hch hne
    cases hist with
    | nil => cases hne rfl
    | cons h t =>
      simp [handleWebSocketMessage, historyNonempty, hch]

/-- Witness for C1 amended: a concrete completed merge appends the whole
historical batch after the loading filter. -/
theorem mergeHistory_dedup_witness :
    (handleWebSocketMessage
      { messages := [], loading := false, status := .idle, tokenCount := "" }
      (.statusMsg (some "completed")
        (some { chatHistory := some [{ role := "assistant", content := "ok" }] })
        none none) "t").messages =
      filterNotLoading [] ++ stampHistory [{ role := "assistant", content := "ok" }] "t" :=
  mergeHistory_dedup_scope.2 _ _ _ _ _ _ rfl (by decide)

/-! ### The connected-clear rule — part_004 lines 57-67 -/

/-- C3 counterexample: a transport error displayed from a pushed
`{type:'error'}` message whose text mentions neither `WebSocket` nor
`connection` survives the `connected` cleanup, so not every
previously-displayed transport-error message is removed. -/
theorem connectedClear_misses_generic_error :
    (({ role := "error", content := "Server rejected the request", timestamp := some "t1" } : ChatMsg) ∈
      (handleWebSocketMessage
        { messages := [{ role := "user", content := "hi" }],
          loading := false, status := .idle, tokenCount := "" }
        (.errorMsg (some "Server rejected the request")) "t1").messages) ∧
    (({ role := "error", content := "Server rejected the request", timestamp := some "t1" } : ChatMsg) ∈
      (handleWebSocketMessage
        (handleWebSocketMessage
          { messages := [{ role := "user", content := "hi" }],
            loading := false, status := .idle, tokenCount := "" }
          (.errorMsg (some "Server rejected the request")) "t1")
        (.system (some "connected")) "t2").messages) := by
  exact ⟨by decide, by decide⟩

/-- C3 amended: on the `connected` system message the handler removes
exactly the error-role bubbles whose content contains `WebSocket` or
`connection` — which covers every transport-error text the connection
manager itself generates — and removes nothing else: non-error bubbles all
survive, the list stays a sublist of the old one, and the other state fields
are untouched. -/
theorem connectedClear_exact_scope (s : PanelState) (now : String) :
    (handleWebSocketMessage s (.system (some "connected")) now =
      { s with messages := clearWsErrors s.messages }) ∧
    (∀ m ∈ s.messages, m.role ≠ "error" → m ∈ clearWsErrors s.messages) ∧
    (clearWsErrors s.messages).Sublist s.messages ∧
    (∀ m ∈ s.messages, isConnErrorMsg m = true → m ∉ clearWsErrors s.messages) ∧
    (isConnErrorMsg { role := "error", content := "Failed to connect to the server via WebSocket. Falling back to HTTP API." } = true) ∧
    (isConnErrorMsg { role := "error", content := "WebSocket connection error. Some features may not work properly." } = true) ∧
    (∀ code : Nat, isConnErrorMsg { role := "error", content := "WebSocket connection closed (" ++ toString code ++ "). Real-time updates disabled." } = true) ∧
    (isConnErrorMsg { role := "error", content := "Failed to establish WebSocket connection. Using HTTP API instead." } = true) := by
  refine ⟨rfl, ?_, List.filter_sublist _, ?_, by decide, by decide, fun code => rfl, by decide⟩
  · intro m hm hrole
    refine List.mem_filter.mpr ⟨hm, ?_⟩
    have hfalse : (m.role == "error") = false := by
      simpa using hrole
    simp [isConnErrorMsg, hfalse]
  · intro m hm hc hcontra
    have := (List.mem_filter.mp hcontra).2
    rw [hc] at this
    simp at this

/-- Witness for C3 amended: a concrete non-error bubble survives the
connected cleanup. -/
theorem connectedClear_witness :
    ({ role := "user", content := "hi" } : ChatMsg) ∈
      clearWsErrors [{ role := "user", content := "hi" }] :=
  (connectedClear_exact_scope
    { messages := [{ role := "user", content := "hi" }],
      loading := false, status := .idle, tokenCount := "" } "t").2.1
    _ (by decide) (by decide)

/-! ### Keepalive and (absence of) reconnection — part_004 lines 37-42
and 190-193 -/

/-- C6 counterexample: in a run in which a keepalive ping is sent and no
pong message ever arrives, the client still performs no connection attempt
beyond the initial mount one — nothing tracks pong arrival and nothing
triggers reconnection, for any window length. -/
theorem pongless_run_never_reconnects :
    ((PanelEvent.mountEffect :: List.replicate 40 (PanelEvent.pingTimer true .opened 0)).all
      (fun e => match e with
        | PanelEvent.wsMessage m _ => !(m == ServerMsg.pong)
        | _ => true) = true) ∧
    ((panelRunActions
        (PanelEvent.mountEffect :: List.replicate 40 (PanelEvent.pingTimer true .opened 0))).contains
      (ClientAction.sendPayload (wsPingPayload 0)) = true) ∧
    ((panelRunActions
        (PanelEvent.mountEffect :: List.replicate 40 (PanelEvent.pingTimer true .opened 0))).count
      ClientAction.connectPush = 1) := by
  exact ⟨by decide, by decide, by decide⟩

lemma panelActions_connect_count (e : PanelEvent) :
    (panelActions e).count ClientAction.connectPush =
      (if e = PanelEvent.mountEffect then 1 else 0) := by
  cases e with
  | mountEffect => rfl
  | pingTimer w rs t =>
    cases w <;> cases rs <;>
      simp [panelActions, sendWebSocketPingActions, List.count_cons, List.count_nil]
  | wsMessage m now => simp [panelActions]
  | unmountEffect =>
    simp [panelActions, List.count_cons, List.count_nil]

/-- C6 amended: a keepalive ping is sent on the fixed 30-second timer only
while the channel is present and open (never over a non-open channel), but
incoming pong messages leave the panel state completely unchanged and no
event other than the initial mount ever initiates a connection: no pong
deadline is tracked and no reconnection is ever triggered. -/
theorem keepalivePing_only_when_open_no_pong_deadline :
    (∀ events : List PanelEvent,
      (panelRunActions events).count ClientAction.connectPush =
        events.count PanelEvent.mountEffect) ∧
    (∀ (wsPresent : Bool) (rs : ReadyState) (time : Nat),
      panelActions (.pingTimer wsPresent rs time) =
        if wsPresent && rs == ReadyState.opened
        then [ClientAction.sendPayload (wsPingPayload time)] else []) ∧
    (∀ (s : PanelState) (now : String), handleWebSocketMessage s .pong now = s) := by
  refine ⟨?_, ?_, fun s now => rfl⟩
  · intro events
    induction events with
    | nil => rfl
    | cons e rest ih =>
      have hsplit : panelRunActions (e :: rest) =
          panelActions e ++ panelRunActions rest := by
        simp [panelRunActions]
      rw [hsplit, List.count_append, ih, panelActions_connect_count]
      by_cases he : e = PanelEvent.mountEffect
      · subst he
        simp [List.count_cons]
        omega
      · simp [List.count_cons, he]
  · intro wsPresent rs time
    cases wsPresent <;> cases rs <;> rfl

/-! ### Sticky browser session — src/frontend/src/services/browser.ts

`browserService` keeps one `currentSessionId` (the `stored` parameter /
`newState` result below).  `_getSessionId(providedId)` is
`providedId || this.currentSessionId` (empty string falsy); each of
`navigate` / `extract` / `performAction` posts `{...params, session_id}`
with that value and, when the response carries a truthy `session_id`,
stores it via `_setSessionId`.  `amazonSearch` sends only the keyword (no
session id) but also adopts a returned `session_id`.  `closeSession` resets
the stored id to null only when the server reports success and the closed id
equals the stored id.  A thrown request is caught and returned as
`{success: false, error}` without touching the stored id. -/

/-- A browser API response body (`BrowserResponse`); extra payload fields do
not influence session handling and are omitted. -/
structure BrowserResp where
  success : Bool
  sessionId : Option String := none
  error : Option String := none
deriving DecidableEq, Repr

/-- Outcome of one `browserApi` HTTP call. -/
inductive BrowserHttp where
  | thrown (msg : String)
  | ok (resp : BrowserResp)
deriving DecidableEq, Repr

/-- `_getSessionId`: `providedId || this.currentSessionId`. -/
def getSessionId (provided stored : Option String) : Option String :=
  match provided with
  | some v => if v == "" then stored else some v
  | none => stored

/-- `if (response.data.session_id) this._setSessionId(response.data.session_id)`. -/
def adoptSession (stored respSid : Option String) : Option String :=
  match respSid with
  | some v => if v == "" then stored else some v
  | none => stored

/-- What one browser operation did: the `session_id` put in the request body
(none if the request carries no such field), the stored id afterwards, and
the value returned to the caller. -/
structure BrowserOpResult where
  sentSessionId : Option String
  newState : Option String
  resp : BrowserResp
deriving DecidableEq, Repr

/-- `browserService.navigate` (lines 65-85). -/
def navigate (stored provided : Option String) (outcome : BrowserHttp) : BrowserOpResult :=
  let sid := getSessionId provided stored
  match outcome with
  | .thrown m =>
    { sentSessionId := sid, newState := stored,
      resp := { success := false, error := some (jsOr (some m) "Failed to navigate") } }
  | .ok r =>
    { sentSessionId := sid, newState := adoptSession stored r.sessionId, resp := r }

/-- `browserService.extract` (lines 90-110); identical session handling. -/
def extract (stored provided : Option String) (outcome : BrowserHttp) : BrowserOpResult :=
  let sid := getSessionId provided stored
  match outcome with
  | .thrown m =>
    { sentSessionId := sid, newState := stored,
      resp := { success := false, error := some (jsOr (some m) "Failed to extract content") } }
  | .ok r =>
    { sentSessionId := sid, newState := adoptSession stored r.sessionId, resp := r }

/-- `browserService.performAction` (lines 115-135); identical session handling. -/
def performAction (stored provided : Option String) (outcome : BrowserHttp) : BrowserOpResult :=
  let sid := getSessionId provided stored
  match outcome with
  | .thrown m =>
    { sentSessionId := sid, newState := stored,
      resp := { success := false, error := some (jsOr (some m) "Failed to perform action") } }
  | .ok r =>
    { sentSessionId := sid, newState := adoptSession stored r.sessionId, resp := r }

/-- `browserService.amazonSearch` (lines 171-189): a GET with only the
keyword parameter — no `session_id` is attached to the request. -/
def amazonSearch (stored : Option String) (outcome : BrowserHttp) : BrowserOpResult :=
  match outcome with
  | .thrown m =>
    { sentSessionId := none, newState := stored,
      resp := { success := false, error := some (jsOr (some m) "Failed to search Amazon") } }
  | .ok r =>
    { sentSessionId := none, newState := adoptSession stored r.sessionId, resp := r }

/-- `browserService.closeSession` (lines 140-166). -/
def closeSession (stored provided : Option String) (outcome : BrowserHttp) : BrowserOpResult :=
  let sid := getSessionId provided stored
  if (match sid with | none => true | some v => v == "") then
    { sentSessionId := none, newState := stored,
      resp := { success := false, error := some "No session ID provided or stored" } }
  else
    match outcome with
    | .thrown m =>
      { sentSessionId := sid, newState := stored,
        resp := { success := false, error := some (jsOr (some m) "Failed to close session") } }
    | .ok r =>
      { sentSessionId := sid,
        newState := if r.success && sid == stored then none else stored,
        resp := r }

/-- C10 counterexample: `amazonSearch`, which takes no explicit session id,
does not put the stored `currentSessionId` into its request — so it is not
true that every browser operation called without an explicit session id uses
the stored id. -/
theorem amazonSearch_ignores_stored_session :
    ¬((amazonSearch (some "sess-1") (.ok { success := true })).sentSessionId = some "sess-1") := by
  decide

/-- C10 amended: `navigate`, `extract` and `performAction` called without an
explicit session id send the stored `currentSessionId`; all four operations
(including `amazonSearch`, which sends no session id at all) adopt a truthy
`session_id` carried by the response; and `closeSession` resets the stored
id to null exactly when the close succeeds and the closed id equals the
stored id — a thrown request, a failed close, or a close of a different
session never clears the stored id. -/
theorem browserSession_sticky (stored provided : Option String)
    (r : BrowserResp) (m : String) :
    ((navigate stored none (.ok r)).sentSessionId = stored ∧
      (extract stored none (.ok r)).sentSessionId = stored ∧
      (performAction stored none (.ok r)).sentSessionId = stored) ∧
    ((navigate stored provided (.ok r)).sentSessionId = getSessionId provided stored ∧
      (extract stored provided (.ok r)).sentSessionId = getSessionId provided stored ∧
      (performAction stored provided (.ok r)).sentSessionId = getSessionId provided stored) ∧
    (∀ v : String, ¬(v = "") →
      (navigate stored provided (.ok { r with sessionId := some v })).newState = some v ∧
      (amazonSearch stored (.ok { r with sessionId := some v })).newState = some v) ∧
    ((navigate stored provided (.ok { r with sessionId := none })).newState = stored ∧
      (navigate stored provided (.thrown m)).newState = stored) ∧
    ((closeSession stored provided (.thrown m)).newState = stored) ∧
    (r.success = false → (closeSession stored provided (.ok r)).newState = stored) ∧
    (¬(getSessionId provided stored = stored) →
      (closeSession stored provided (.ok r)).newState = stored) ∧
    (∀ v : String, ¬(v = "") →
      ((closeSession (some v) provided (.ok r)).newState = none ↔
        (r.success = true ∧ getSessionId provided (some v) = some v))) := by
  refine ⟨⟨rfl, rfl, rfl⟩, ⟨rfl, rfl, rfl⟩, ?_, ⟨?_, rfl⟩, ?_, ?_, ?_, ?_⟩
  · intro v hv
    have hbeq : (v == "") = false := by simpa using hv
    constructor
    · simp [navigate, adoptSession, hbeq]
    · simp [amazonSearch, adoptSession, hbeq]
  · simp [navigate, adoptSession]
  · by_cases hguard : (match getSessionId provided stored with
      | none => true | some v => v == "") = true
    · simp [closeSession, hguard]
    · simp [closeSession, hguard]
  · intro hfail
    by_cases hguard : (match getSessionId provided stored with
      | none => true | some v => v == "") = true
    · simp [closeSession, hguard]
    · simp [closeSession, hguard, hfail]
  · intro hdiff
    by_cases hguard : (match getSessionId provided stored with
      | none => true | some v => v == "") = true
    · simp [closeSession, hguard]
    · have hbeq : (getSessionId provided stored == stored) = false := by
        simpa using hdiff
      simp [closeSession, hguard, hbeq]
  · intro v hv
    have hvbeq : (v == "") = false := by simpa using hv
    by_cases hsid : getSessionId provided (some v) = some v
    · have hguard : (match getSessionId provided (some v) with
        | none => true | some w => w == "") = false := by
        rw [hsid]
        simpa using hv
      constructor
      · intro hnone
        by_cases hsucc : r.success = true
        · exact ⟨hsucc, hsid⟩
        · rw [Bool.not_eq_true] at hsucc
          simp [closeSession, hguard, hsucc] at hnone
      · intro hcond
        have hbeq : (getSessionId provided (some v) == some v) = true := by
          simpa using hsid
        simp [closeSession, hguard, hcond.1, hbeq]
    · constructor
      · intro hnone
        rcases hres : getSessionId provided (some v) with _ | w
        · simp [closeSession, hres] at hnone
        · by_cases hw : (w == "") = true
          · simp [closeSession, hres, hw] at hnone
          · have hbeq : (getSessionId provided (some v) == some v) = false := by
              simpa using hsid
            have hguard : (match getSessionId provided (some v) with
              | none => true | some u => u == "") = false := by
              rw [hres]; simpa using hw
            simp [closeSession, hguard, hbeq] at hnone
      · intro hcond
        exact absurd hcond.2 hsid

/-- Witness for C10 amended: closing a different session than the stored one
leaves the stored id intact; the hypotheses are discharged at concrete
values. -/
theorem browserSession_sticky_witness :
    (closeSession (some "a") (some "b") (.ok { success := true })).newState = some "a" :=
  (browserSession_sticky (some "a") (some "b") { success := true } "m").2.2.2.2.2.2.1
    (by decide)

end Owl
